import Mathlib

/-!
Shallow embedding of the rodan-online-store backend (Django/DRF) for
verification of its specification claims.

Conventions used throughout:
* `DecimalField` money values are rationals (`ℚ`): Python `Decimal`
  addition, subtraction, multiplication, `min`/`max` and division by 100
  of 10-digit operands are exact under the default 28-digit context, so
  `ℚ` is a faithful model of every arithmetic step that appears here.
* `DateTimeField` values are integer timestamps (`ℤ`); `timezone.now()`
  becomes an explicit `now : ℤ` argument.
* Database tables are explicit lists; `objects.filter(...).count()` and
  `objects.filter(...).exists()` become list operations.
* Fallible serializer/view code returns `Except` values; an HTTP error
  response is modeled by its status code and message.
Fields of the Django models that none of the modeled logic reads
(shipping address strings, audit metadata, image data, ...) are omitted.
-/

namespace Rodan

/-- `Product.DISCOUNT_TYPE_CHOICES`: `'percentage'` or `'fixed'`. -/
inductive ProductDiscountType
  | percentage
  | fixed
deriving DecidableEq, Repr

/-- `product_management.models.Product`: the fields read by the cart and
order logic. `price` and `stock_quantity` are nullable columns
(`null=True`); `stock_quantity` is modeled as `ℕ` because every flow
proved here reads it only for simple products, where it is required. -/
structure Product where
  id : ℕ
  price : Option ℚ
  discount : ℚ
  discount_type : Option ProductDiscountType
  stock_quantity : ℕ
  is_active : Bool
deriving DecidableEq, Repr

/-- `Product.discounted_price`: the outer guard mirrors Python
`if self.discount_type and self.discount:` (a `Decimal` is falsy exactly
when it is zero), and the unguarded `return self.price` is the
fall-through at the end of the method. -/
def Product.discounted_price (p : Product) : ℚ :=
  match p.price with
  | none => 0
  | some price =>
    match p.discount_type with
    | none => price
    | some dt =>
      if p.discount = 0 then price
      else if dt = .percentage ∧ 0 < p.discount then price * (1 - p.discount / 100)
      else if dt = .fixed ∧ 0 < p.discount then max 0 (price - p.discount)
      else price

/-- `product_management.models.ProductVariation`: fields read by the cart
and order logic. `price` is a non-nullable column, so the
`if self.price is None: return 0` branch of `discounted_price` is
unreachable and not modeled. -/
structure ProductVariation where
  id : ℕ
  product : ℕ
  sku : String
  price : ℚ
  discount : ℚ
  discount_type : Option ProductDiscountType
  stock_quantity : ℕ
  is_active : Bool
deriving DecidableEq, Repr

/-- `ProductVariation.discounted_price` (the `@property`, which shadows the
stored column of the same name). -/
def ProductVariation.discounted_price (v : ProductVariation) : ℚ :=
  match v.discount_type with
  | none => v.price
  | some dt =>
    if v.discount = 0 then v.price
    else if dt = .percentage ∧ 0 < v.discount then v.price * (1 - v.discount / 100)
    else if dt = .fixed ∧ 0 < v.discount then max 0 (v.price - v.discount)
    else v.price

/-- The Python format `f"{c:02d}"`: decimal digits of `c`, left-padded with
`0` to a minimum width of two. -/
def pad2 (n : ℕ) : String :=
  if n < 10 then ("0" ++ toString n) else toString n

/-- Loop body of `ensure_unique_sku`. `existing` is the set of SKUs in the
table of `model_class` with the `exclude_id` row already removed (the claim
itself quantifies modulo the excluded id); `timestamp` models
`str(int(time.time()))[-6:]`. The loop first tests the current `sku`; on a
collision it builds `original-{counter:02d}` and increments `counter`, and
once the incremented counter exceeds 999 it abandons that candidate and
returns the timestamp suffix without another uniqueness test, exactly as
the `break` in the source does. -/
def ensureUniqueSkuAux (original timestamp : String) (existing : List String)
    (sku : String) (counter : ℕ) : String :=
  if existing.contains sku then
    if h : counter + 1 > 999 then original ++ "-" ++ timestamp
    else ensureUniqueSkuAux original timestamp existing
      (original ++ "-" ++ pad2 counter) (counter + 1)
  else sku
termination_by 1000 - counter
decreasing_by simp_wf; omega

/-- `product_management.models.ensure_unique_sku` (with `counter = 1` and
`original_sku = sku` as in the source). -/
def ensure_unique_sku (sku : String) (existing : List String) (timestamp : String) : String :=
  ensureUniqueSkuAux sku timestamp existing sku 1

/-- Number of collision iterations (counter increments) the
`ensure_unique_sku` loop performs; mirrors `ensureUniqueSkuAux` step for
step. -/
def skuStepsAux (original : String) (existing : List String)
    (sku : String) (counter : ℕ) : ℕ :=
  if existing.contains sku then
    if h : counter + 1 > 999 then 1
    else 1 + skuStepsAux original existing (original ++ "-" ++ pad2 counter) (counter + 1)
  else 0
termination_by 1000 - counter
decreasing_by simp_wf; omega

/-- Collision iterations performed by `ensure_unique_sku` on the given
inputs. -/
def skuLoopSteps (base : String) (existing : List String) : ℕ :=
  skuStepsAux base existing base 1

/-- The candidate SKUs the loop actually tests, in order: the base itself,
then `base-{c:02d}` for counters 1 through 998 (the candidate built for
counter 999 is discarded by the `break`). -/
def skuCandidates (base : String) : List String :=
  base :: (List.range' 1 998).map (fun k => base ++ "-" ++ pad2 k)

/-- `cart_management.models.CartItem`: a cart line. The foreign keys are
carried as the referenced rows themselves. -/
structure CartItem where
  product : Product
  product_variation : Option ProductVariation
  quantity : ℕ
deriving DecidableEq, Repr

/-- `CartItem.unit_price`. `Product.price` is `None` only for variable
products, which always carry a variation on a cart line, so the `getD 0`
default is unreachable in the modeled flows. -/
def CartItem.unit_price (it : CartItem) : ℚ :=
  match it.product_variation with
  | some v => v.price
  | none => it.product.price.getD 0

/-- `CartItem.subtotal` -/
def CartItem.subtotal (it : CartItem) : ℚ :=
  it.unit_price * it.quantity

/-- `CartItem.is_available` -/
def CartItem.is_available (it : CartItem) : Bool :=
  if !it.product.is_active then false
  else
    match it.product_variation with
    | some v =>
      if !v.is_active then false
      else decide (it.quantity ≤ v.stock_quantity)
    | none => decide (it.quantity ≤ it.product.stock_quantity)

/-- `CartItem.product_name` stand-in: the modeled flows only need a name
for error messages, and the product row is identified by its id. -/
def CartItem.product_name (it : CartItem) : String :=
  toString it.product.id

/-- Two cart lines collide exactly when product and variation agree
(`unique_together = ['cart', 'product', 'product_variation']`). -/
def cartKeyMatches (it : CartItem) (p : Product) (v : Option ProductVariation) : Bool :=
  (it.product.id == p.id) && (it.product_variation.map ProductVariation.id == v.map ProductVariation.id)

/-- `Cart.add_item`: `get_or_create` on the cart key, adding `quantity` to
an existing line or appending a new one. -/
def addItemToCart (cart : List CartItem) (p : Product) (v : Option ProductVariation)
    (q : ℕ) : List CartItem :=
  if cart.any (fun it => cartKeyMatches it p v) then
    cart.map (fun it =>
      if cartKeyMatches it p v then { it with quantity := it.quantity + q } else it)
  else cart ++ [{ product := p, product_variation := v, quantity := q }]

/-- `Cart.clear_cart`: deletes every line of the cart. -/
def clear_cart (_ : List CartItem) : List CartItem := []

/-- `Coupon.DISCOUNT_TYPE_CHOICES`. -/
inductive CouponDiscountType
  | percentage
  | fixed
  | free_shipping
deriving DecidableEq, Repr

/-- `order_management.models.Coupon`: the fields its validity and discount
logic reads. `usage_limit` is nullable (`null=True`); the many-to-many
applicability fields are never read by the modeled code. -/
structure Coupon where
  code : String
  discount_type : CouponDiscountType
  discount_value : ℚ
  usage_limit : Option ℕ
  usage_limit_per_user : ℕ
  minimum_order_amount : ℚ
  start_date : ℤ
  end_date : ℤ
  is_active : Bool
  times_used : ℕ
deriving DecidableEq, Repr

/-- `order_management.models.CouponUsage`: one row per recorded use, keyed
by the coupon's (unique) code, the user id and the order id. -/
structure CouponUsage where
  coupon : String
  user : ℕ
  order : ℕ
deriving DecidableEq, Repr

/-- `Coupon.is_valid` at time `now`. -/
def Coupon.is_valid (c : Coupon) (now : ℤ) : Bool :=
  c.is_active && (decide (c.start_date ≤ now) && decide (now ≤ c.end_date)) &&
    (match c.usage_limit with
     | none => true
     | some lim => decide (c.times_used < lim))

/-- `CouponUsage.objects.filter(coupon=self, user=user).count()`. -/
def countUserUsages (c : Coupon) (user : ℕ) (usages : List CouponUsage) : ℕ :=
  (usages.filter (fun u => (u.coupon == c.code) && (u.user == user))).length

/-- `Coupon.can_be_used_by_user` -/
def Coupon.can_be_used_by_user (c : Coupon) (now : ℤ) (usages : List CouponUsage)
    (user : ℕ) : Bool :=
  if !(c.is_valid now) then false
  else decide (countUserUsages c user usages < c.usage_limit_per_user)

/-- `Coupon.get_discount_amount` -/
def Coupon.get_discount_amount (c : Coupon) (order_total : ℚ) : ℚ :=
  match c.discount_type with
  | .percentage => min (order_total * (c.discount_value / 100)) order_total
  | .fixed => min c.discount_value order_total
  | .free_shipping => 0

/-- `Order.STATUS_CHOICES`. -/
inductive OrderStatus
  | created
  | confirmed
  | processing
  | shipped
  | delivered
  | cancelled
  | refunded
deriving DecidableEq, Repr

/-- The string stored in the `status` column for each `OrderStatus`. -/
def statusStr : OrderStatus → String
  | .created => "created"
  | .confirmed => "confirmed"
  | .processing => "processing"
  | .shipped => "shipped"
  | .delivered => "delivered"
  | .cancelled => "cancelled"
  | .refunded => "refunded"

/-- `order_management.models.OrderItem`: product and variation are carried
by id, as the foreign-key columns are. -/
structure OrderItem where
  product : ℕ
  product_variation : Option ℕ
  quantity : ℕ
  unit_price : ℚ
  subtotal : ℚ
deriving DecidableEq, Repr

/-- `order_management.models.Order`: the fields read or written by
`calculate_totals`, `can_be_cancelled`, the cancel view and the create
serializer. The related set `self.items` is carried inline. -/
structure Order where
  status : OrderStatus
  subtotal : ℚ
  shipping_cost : ℚ
  tax_amount : ℚ
  discount_amount : ℚ
  total_amount : ℚ
  coupon : Option Coupon
  coupon_code : String
  items : List OrderItem
deriving DecidableEq, Repr

/-- `Order.calculate_totals` at time `now` (the coupon's `is_valid`
property reads `timezone.now()`). -/
def Order.calculate_totals (o : Order) (now : ℤ) : Order :=
  let subtotal := (o.items.map OrderItem.subtotal).sum
  let discount :=
    match o.coupon with
    | some c =>
      if c.is_valid now then
        if c.minimum_order_amount ≤ subtotal then c.get_discount_amount subtotal
        else 0
      else 0
    | none => 0
  { o with
    subtotal := subtotal
    discount_amount := discount
    total_amount := subtotal + o.shipping_cost + o.tax_amount - discount }

/-- `Order.can_be_cancelled`: note this is a plain method in the source,
not a `@property`. -/
def Order.can_be_cancelled (o : Order) : Bool :=
  o.status == .created || o.status == .confirmed

/-- `CouponValidationSerializer.validate`, entered after `validate_code`
has resolved the submitted code: `lookup` is the result of
`Coupon.objects.get(code=value.upper())`, with `none` for
`Coupon.DoesNotExist`. -/
def couponValidationValidate (lookup : Option Coupon) (now : ℤ)
    (usages : List CouponUsage) (user : ℕ) (order_total : ℚ) : Except String Coupon :=
  match lookup with
  | none => .error ("Invalid coupon code")
  | some coupon =>
    if !(coupon.is_valid now) then .error ("This coupon is not currently valid")
    else if !(coupon.can_be_used_by_user now usages user) then
      .error ("You have reached the usage limit for this coupon")
    else if order_total < coupon.minimum_order_amount then
      .error ("Minimum order amount required")
    else .ok coupon

/-- `OrderCreateSerializer.validate_coupon_code`: `lookup` models the
`Coupon` table keyed by code; the empty string is the falsy "no coupon"
value. -/
def validate_coupon_code (value : String) (lookup : String → Option Coupon)
    (now : ℤ) : Except String (Option Coupon) :=
  if value = "" then .ok none
  else
    match lookup value.toUpper with
    | none => .error ("Invalid coupon code")
    | some coupon =>
      if coupon.is_valid now then .ok (some coupon)
      else .error ("Invalid or expired coupon code")

/-- The `allowed_transitions` table of `OrderUpdateSerializer.validate_status`. -/
def allowed_transitions : OrderStatus → List OrderStatus
  | .created => [.confirmed, .cancelled]
  | .confirmed => [.processing, .cancelled]
  | .processing => [.shipped, .cancelled]
  | .shipped => [.delivered]
  | .delivered => []
  | .cancelled => []
  | .refunded => []

/-- `OrderUpdateSerializer.validate_status` when an instance is being
updated (`self.instance` set, its status being `current`). -/
def validate_status (current value : OrderStatus) : Except String OrderStatus :=
  if (allowed_transitions current).contains value then .ok value
  else .error ("Cannot change status from " ++ statusStr current ++ " to " ++ statusStr value)

/-- In `OrderViewSet.cancel` the guard reads `if not order.can_be_cancelled:`
without calling the method: the attribute lookup yields a bound-method
object, and in Python any bound method is truthy, so the guard condition
is `False` for every order. This constant is the truthiness of that
bound-method object. -/
def boundMethodTruthy : Bool := true

/-- An HTTP response as the modeled views produce it: status code plus
message. -/
structure ViewResponse where
  httpStatus : ℕ
  message : String
deriving DecidableEq, Repr

/-- `OrderViewSet.cancel`: returns the stored order (unchanged on the
error path) and the response. -/
def cancelView (o : Order) : Order × ViewResponse :=
  if !boundMethodTruthy then
    (o, { httpStatus := 400, message := "Order cannot be cancelled in its current status" })
  else
    ({ o with status := .cancelled },
     { httpStatus := 200, message := "Order cancelled successfully" })

/-- One element of the `items` payload of `OrderCreateSerializer` after
the primary keys are resolved back to rows, as DRF's related fields do. -/
structure ItemData where
  product : Product
  product_variation : Option ProductVariation
  quantity : ℕ
  unit_price : ℚ
deriving DecidableEq, Repr

/-- `OrderItemCreateSerializer.validate`: unconditionally overwrites the
submitted `unit_price` with the variation's price, or with the product's
discounted price when there is no variation (`super().validate` is the
no-op `ModelSerializer.validate`). -/
def orderItemCreateValidate (d : ItemData) : ItemData :=
  match d.product_variation with
  | some v => { d with unit_price := v.price }
  | none => { d with unit_price := d.product.discounted_price }

/-- The payload fields of `create_from_cart` that the modeled logic reads;
the required shipping strings are present (their presence check in the
view is modeled as satisfied) and `shipping_cost`, `tax_amount`,
`coupon_code` carry the view's defaults `0`, `0`, `""` when absent. -/
structure CreateFromCartRequest where
  shipping_cost : ℚ
  tax_amount : ℚ
  coupon_code : String
deriving DecidableEq, Repr

/-- `OrderItem.save`: stores the historical fields and computes
`subtotal = unit_price * quantity`. -/
def mkOrderItem (d : ItemData) : OrderItem :=
  { product := d.product.id
    product_variation := d.product_variation.map ProductVariation.id
    quantity := d.quantity
    unit_price := d.unit_price
    subtotal := d.unit_price * d.quantity }

/-- `OrderCreateSerializer.create`: creates the order, attaches the coupon
when `can_be_used_by_user` holds, creates the items and recomputes the
totals. The `CouponUsage` row insertion and `times_used` increment are
writes to other tables and do not affect the returned order. -/
def orderCreateSerializerCreate (items : List ItemData) (coupon : Option Coupon)
    (req : CreateFromCartRequest) (now : ℤ) (usages : List CouponUsage)
    (user : ℕ) : Order :=
  let base : Order :=
    { status := .created, subtotal := 0, shipping_cost := req.shipping_cost
      tax_amount := req.tax_amount, discount_amount := 0, total_amount := 0
      coupon := none, coupon_code := "", items := [] }
  let withCoupon : Order :=
    match coupon with
    | some c =>
      if c.can_be_used_by_user now usages user then
        { base with coupon := some c, coupon_code := c.code }
      else base
    | none => base
  ({ withCoupon with items := items.map mkOrderItem }).calculate_totals now

/-- Python `Decimal.quantize(Decimal('0.01'))` with the default
`ROUND_HALF_EVEN`: round to an integer, ties to the even neighbour. -/
def roundHalfEven (q : ℚ) : ℤ :=
  if q - ⌊q⌋ < 1 / 2 then ⌊q⌋
  else if 1 / 2 < q - ⌊q⌋ then ⌊q⌋ + 1
  else if Even ⌊q⌋ then ⌊q⌋ else ⌊q⌋ + 1

/-- Quantization of a money amount to 2 decimal places, half-even. -/
def quantize2 (q : ℚ) : ℚ :=
  (roundHalfEven (q * 100) : ℚ) / 100

/-- The per-item body of `create_from_cart`: picks the discounted price
when it is truthy (non-zero) and strictly below the current unit price,
and quantizes to two decimals. The source compares through `float(...)`;
the comparison is modeled exactly on `ℚ`. The `hasattr` guards on
`discounted_price` are always true, since both classes define the
property. -/
def viewItemData (it : CartItem) : ItemData :=
  let discounted_price : ℚ :=
    match it.product_variation with
    | some v => v.discounted_price
    | none => it.product.discounted_price
  let unit_price :=
    if discounted_price ≠ 0 ∧ discounted_price < it.unit_price then discounted_price
    else it.unit_price
  { product := it.product
    product_variation := it.product_variation
    quantity := it.quantity
    unit_price := quantize2 unit_price }

/-- `OrderViewSet.create_from_cart`, end to end: cart lookup, emptiness
and availability checks, conversion of cart lines to item payloads,
`OrderCreateSerializer` validation (`validate_items`,
`validate_coupon_code`, per-item `OrderItemCreateSerializer.validate`)
and `create`, then `cart.clear_cart()`. Errors carry the HTTP status the
view responds with. On success the result is the created order and the
cart's new contents. -/
def createFromCart (cartExists : Bool) (cart : List CartItem)
    (req : CreateFromCartRequest) (lookup : String → Option Coupon) (now : ℤ)
    (usages : List CouponUsage) (user : ℕ) :
    Except (ℕ × String) (Order × List CartItem) :=
  if !cartExists then .error (404, "No cart found for user")
  else if cart.isEmpty then .error (400, "Cart is empty")
  else
    match cart.find? (fun it => !it.is_available) with
    | some it => .error (400, "Item " ++ it.product_name ++ " is no longer available")
    | none =>
      let items_data := cart.map viewItemData
      if items_data.isEmpty then .error (400, "Order must have at least one item")
      else
        match validate_coupon_code req.coupon_code lookup now with
        | .error e => .error (400, e)
        | .ok couponOpt =>
          let validated := items_data.map orderItemCreateValidate
          let order := orderCreateSerializerCreate validated couponOpt req now usages user
          .ok (order, clear_cart cart)

/-- `AddToCartSerializer` payload. -/
structure AddToCartRequest where
  product_id : ℕ
  product_variation_id : Option ℕ
  quantity : ℤ
deriving DecidableEq, Repr

/-- `Product.objects.get(id=value)` over the modeled table. -/
def findProduct (products : List Product) (idv : ℕ) : Option Product :=
  products.find? (fun p => p.id == idv)

/-- `ProductVariation.objects.get(id=value)` over the modeled table. -/
def findVariation (variations : List ProductVariation) (idv : ℕ) : Option ProductVariation :=
  variations.find? (fun v => v.id == idv)

/-- `AddToCartSerializer.is_valid`: the field validators
(`validate_product_id`, `validate_product_variation_id`, the
`min_value=1` bound on `quantity`) followed by the object-level
`validate` (variation/product compatibility and stock). -/
def addToCartIsValid (products : List Product) (variations : List ProductVariation)
    (req : AddToCartRequest) : Except String AddToCartRequest :=
  match findProduct products req.product_id with
  | none => .error ("Product not found")
  | some product =>
    if !product.is_active then .error ("This product is no longer available")
    else
      match req.product_variation_id with
      | some vid =>
        (match findVariation variations vid with
         | none => .error ("Product variation not found")
         | some variation =>
           if !variation.is_active then .error ("This product variation is no longer available")
           else if req.quantity < 1 then .error ("Ensure this value is greater than or equal to 1.")
           else if variation.product ≠ req.product_id then
             .error ("Product variation does not belong to the specified product")
           else if (variation.stock_quantity : ℤ) < req.quantity then
             .error ("Only stock_quantity items available in stock")
           else .ok req)
      | none =>
        if req.quantity < 1 then .error ("Ensure this value is greater than or equal to 1.")
        else if (product.stock_quantity : ℤ) < req.quantity then
          .error ("Only stock_quantity items available in stock")
        else .ok req

/-- `CartViewSet.add_item`: on a serializer error the view answers 400 and
the cart is untouched; otherwise the validated item is added through
`Cart.add_item` and the view answers 201. -/
def add_item_view (products : List Product) (variations : List ProductVariation)
    (cart : List CartItem) (req : AddToCartRequest) : List CartItem × ℕ :=
  match addToCartIsValid products variations req with
  | .error _ => (cart, 400)
  | .ok r =>
    match findProduct products r.product_id with
    | none => (cart, 404)
    | some product =>
      match r.product_variation_id with
      | some vid =>
        (match findVariation variations vid with
         | none => (cart, 404)
         | some v => (addItemToCart cart product (some v) r.quantity.toNat, 201))
      | none => (addItemToCart cart product none r.quantity.toNat, 201)

/-- `CartItemCreateSerializer` payload with its related fields resolved. -/
structure CartItemCreateInput where
  product : Product
  product_variation : Option ProductVariation
  quantity : ℤ
deriving DecidableEq, Repr

/-- `CartItemCreateSerializer.validate_quantity` -/
def validate_quantity (value : ℤ) : Except String ℤ :=
  if value ≤ 0 then .error ("Quantity must be greater than 0") else .ok value

/-- `CartItemCreateSerializer.is_valid`: `validate_quantity` then the
object-level `validate` (compatibility, active flags, stock). -/
def cartItemCreateIsValid (inp : CartItemCreateInput) : Except String CartItemCreateInput :=
  match validate_quantity inp.quantity with
  | .error e => .error e
  | .ok _ =>
    match inp.product_variation with
    | some v =>
      if v.product ≠ inp.product.id then
        .error ("Product variation does not belong to the specified product")
      else if !inp.product.is_active then .error ("This product is no longer available")
      else if !v.is_active then .error ("This product variation is no longer available")
      else if (v.stock_quantity : ℤ) < inp.quantity then
        .error ("Only stock_quantity items available in stock")
      else .ok inp
    | none =>
      if !inp.product.is_active then .error ("This product is no longer available")
      else if (inp.product.stock_quantity : ℤ) < inp.quantity then
        .error ("Only stock_quantity items available in stock")
      else .ok inp

/-- `CartItemViewSet.create` with `perform_create`: 400 and an untouched
cart on a validation error, otherwise the existing line's quantity is
increased or a new line is created. -/
def cart_item_create_view (cart : List CartItem) (inp : CartItemCreateInput) :
    List CartItem × ℕ :=
  match cartItemCreateIsValid inp with
  | .error _ => (cart, 400)
  | .ok r =>
    (if cart.any (fun it => cartKeyMatches it r.product r.product_variation) then
      cart.map (fun it =>
        if cartKeyMatches it r.product r.product_variation then
          { it with quantity := it.quantity + r.quantity.toNat }
        else it)
    else cart ++ [{ product := r.product, product_variation := r.product_variation,
                    quantity := r.quantity.toNat }], 201)

/-- The JSON-ish values DRF responses carry, as the exception handler
inspects them: `hasattr(data, 'items')` holds exactly for the `obj`
(mapping) case. -/
inductive PyJson
  | bool (b : Bool)
  | str (s : String)
  | arr (xs : List String)
  | obj (fields : List (String × PyJson))

/-- A DRF response as seen by the exception handler: the status code the
framework's `exception_handler` chose, and its body. -/
structure DRFResponse where
  status_code : ℕ
  data : PyJson

/-- The `elif` chain of `custom_exception_handler` that picks a message
from the status code (only reached when the body is a mapping);
`'An error occurred'` is the preset default. -/
def messageForStatus (code : ℕ) : String :=
  if code = 400 then ("Validation error")
  else if code = 401 then ("Authentication required")
  else if code = 403 then ("Permission denied")
  else if code = 404 then ("Resource not found")
  else if code = 405 then ("Method not allowed")
  else if code = 429 then ("Too many requests")
  else if 500 ≤ code then ("Internal server error")
  else ("An error occurred")

/-- `user_management.exceptions.custom_exception_handler`, for the
responses the framework handler produced (the `response is None` branch
returns nothing and is outside this model). -/
def custom_exception_handler (response : DRFResponse) : DRFResponse :=
  match response.data with
  | .obj fields =>
    { response with
      data := .obj [("success", .bool false),
                    ("message", .str (messageForStatus response.status_code)),
                    ("errors", .obj fields)] }
  | d =>
    { response with
      data := .obj [("success", .bool false),
                    ("message", .str ("An error occurred")),
                    ("errors", .obj [("detail", d)])] }

/-- Field lookup in a `PyJson.obj` body. -/
def jsonField (j : PyJson) (key : String) : Option PyJson :=
  match j with
  | .obj fields => (fields.find? (fun kv => kv.1 == key)).map Prod.snd
  | _ => none

/-! Claim-side definitions: statements of claim properties in the spec's
own words, to be compared with the behaviour of the source-translated
definitions above. -/

/-- The discount amount exactly as claim C1 words it: the coupon's
`get_discount_amount(subtotal)` when the order has a coupon that is valid
and the subtotal reaches the coupon's minimum, `0` in every other case. -/
def claimedDiscount (coupon : Option Coupon) (now : ℤ) (subtotal : ℚ) : ℚ :=
  match coupon with
  | some c =>
    if c.is_valid now = true ∧ c.minimum_order_amount ≤ subtotal then
      c.get_discount_amount subtotal
    else 0
  | none => 0

/-- The unit price claim C2 asserts for a converted cart line: the
discounted price when strictly below the current unit price, otherwise
the current unit price, rounded to 2 decimal places. -/
def claimedUnitPrice (it : CartItem) : ℚ :=
  let d : ℚ :=
    match it.product_variation with
    | some v => v.discounted_price
    | none => it.product.discounted_price
  if d < it.unit_price then quantize2 d else quantize2 it.unit_price

/-- The unit price `create_from_cart` actually stores on the created order
item (amended claim C2): `OrderItemCreateSerializer.validate` overwrites
the view's computed price with the variation's price, or the product's
discounted price when there is no variation. -/
def storedUnitPrice (it : CartItem) : ℚ :=
  match it.product_variation with
  | some v => v.price
  | none => it.product.discounted_price

/-- The order item `create_from_cart` creates for a cart line (amended
claim C2). -/
def expectedOrderItem (it : CartItem) : OrderItem :=
  { product := it.product.id
    product_variation := it.product_variation.map ProductVariation.id
    quantity := it.quantity
    unit_price := storedUnitPrice it
    subtotal := storedUnitPrice it * it.quantity }

/-- Claim C3 exactly as stated: the returned SKU is outside the existing
set, and is either the base SKU itself (when free) or the base SKU with
the first free two-digit counter suffix appended. -/
def claimC3Holds (base timestamp : String) (existing : List String) : Prop :=
  ensure_unique_sku base existing timestamp ∉ existing ∧
    ((base ∉ existing ∧ ensure_unique_sku base existing timestamp = base) ∨
     (base ∈ existing ∧
       ∃ c ∈ List.range' 1 99,
         ensure_unique_sku base existing timestamp = base ++ "-" ++ pad2 c ∧
           ∀ k ∈ List.range' 1 99, k < c → (base ++ "-" ++ pad2 k) ∈ existing))

/-! Concrete sample inputs for witnesses and counterexamples. -/

/-- An otherwise valid coupon whose `end_date` has passed at time 10. -/
def expiredCoupon : Coupon :=
  { code := "SAVE10", discount_type := .percentage, discount_value := 10
    usage_limit := none, usage_limit_per_user := 1, minimum_order_amount := 0
    start_date := 0, end_date := 5, is_active := true, times_used := 0 }

/-- A coupon inside its validity window that has exhausted its total usage
limit. -/
def cappedCoupon : Coupon :=
  { code := "CAP", discount_type := .fixed, discount_value := 5
    usage_limit := some 2, usage_limit_per_user := 1, minimum_order_amount := 0
    start_date := 0, end_date := 100, is_active := true, times_used := 2 }

/-- One recorded use of `cappedCoupon` by user 7. -/
def capUsage : CouponUsage :=
  { coupon := "CAP", user := 7, order := 1 }

/-- A plain in-stock product. -/
def sampleProduct : Product :=
  { id := 1, price := some 50, discount := 0, discount_type := none
    stock_quantity := 10, is_active := true }

/-- An active variation of `sampleProduct` with a 10% discount: price 100,
discounted price 90. -/
def cexVariation : ProductVariation :=
  { id := 7, product := 1, sku := "V-7", price := 100, discount := 10
    discount_type := some .percentage, stock_quantity := 5, is_active := true }

/-- A cart line holding one unit of `cexVariation`. -/
def cexCartItem : CartItem :=
  { product := sampleProduct, product_variation := some cexVariation, quantity := 1 }

/-- A checkout payload with no coupon and zero shipping and tax. -/
def cexRequest : CreateFromCartRequest :=
  { shipping_cost := 0, tax_amount := 0, coupon_code := "" }

/-- A delivered order: `can_be_cancelled` is false for it. -/
def deliveredOrder : Order :=
  { status := .delivered, subtotal := 100, shipping_cost := 0, tax_amount := 0
    discount_amount := 0, total_amount := 100, coupon := none, coupon_code := ""
    items := [] }

/-- An existing-SKU set in which the base `"B"` and all two-digit
candidates `"B-01"` … `"B-99"` are taken. -/
def skuCexSet : List String :=
  "B" :: (List.range' 1 99).map (fun k => "B-" ++ pad2 k)

/-- A 400 response whose body is a mapping of field errors. -/
def dictBadRequest : DRFResponse :=
  { status_code := 400, data := .obj [("detail", .str ("bad"))] }

/-- A 400 response whose body is a bare list of error strings, as DRF
produces for a non-field `ValidationError`. -/
def listBadRequest : DRFResponse :=
  { status_code := 400, data := .arr ["bad"] }

end Rodan

deriving instance DecidableEq for Except

namespace Rodan

/-! Theorems. Helper lemmas come first; each claim is settled by one named
theorem, with a witness or counterexample where called for. -/

/-- Unrolling lemma for the `ensure_unique_sku` loop: from counter `c` on,
the loop returns the current candidate when free, otherwise the first free
candidate among `original-{k:02d}` for `k` in `c, …, 998`, and falls back
to the timestamp suffix when all of those are taken. -/
theorem ensureUniqueSkuAux_eq (original timestamp : String) (existing : List String) :
    ∀ n sku c, 1 ≤ c → c ≤ 999 → 999 - c = n →
      ensureUniqueSkuAux original timestamp existing sku c =
        if existing.contains sku then
          (((List.range' c (999 - c)).map (fun k => original ++ "-" ++ pad2 k)).find?
              (fun s => !existing.contains s)).getD (original ++ "-" ++ timestamp)
        else sku := by
  intro n
  induction n with
  | zero =>
    intro sku c h1 h2 hn
    have hc : c = 999 := by omega
    subst hc
    rw [ensureUniqueSkuAux]
    split
    · rw [dif_pos (by omega)]
      simp
    · rfl
  | succ m ih =>
    intro sku c h1 h2 hn
    have hc : c ≤ 998 := by omega
    rw [ensureUniqueSkuAux]
    split
    case isTrue hmem =>
      rw [dif_neg (by omega)]
      rw [ih (original ++ "-" ++ pad2 c) (c + 1) (by omega) (by omega) (by omega)]
      have hr : 999 - c = m + 1 := by omega
      rw [hr, List.range'_succ]
      have hr2 : 999 - (c + 1) = m := by omega
      rw [hr2]
      simp only [List.map_cons]
      by_cases hfree : existing.contains (original ++ "-" ++ pad2 c)
      · rw [if_pos hfree, List.find?_cons_of_neg _ (by simp only [hfree]; decide)]
      · have hfree2 : existing.contains (original ++ "-" ++ pad2 c) = false := by
          simpa using hfree
        rw [if_neg hfree, List.find?_cons_of_pos _ (by simp only [hfree2]; decide)]
        simp
    case isFalse hmem => rfl

/-- `ensure_unique_sku` as first-free-candidate search with timestamp
fallback; instance of `ensureUniqueSkuAux_eq` at the entry point. -/
theorem ensure_unique_sku_eq_find (base timestamp : String) (existing : List String) :
    ensure_unique_sku base existing timestamp =
      if existing.contains base then
        (((List.range' 1 998).map (fun k => base ++ "-" ++ pad2 k)).find?
            (fun s => !existing.contains s)).getD (base ++ "-" ++ timestamp)
      else base := by
  have h := ensureUniqueSkuAux_eq base timestamp existing 998 base 1
    (by omega) (by omega) (by omega)
  simpa using h

/-- The loop's collision count from counter `c` never exceeds the room left
below the break bound. -/
theorem skuStepsAux_le (original : String) (existing : List String) :
    ∀ n sku c, 1 ≤ c → c ≤ 999 → 999 - c = n →
      skuStepsAux original existing sku c ≤ 1000 - c := by
  intro n
  induction n with
  | zero =>
    intro sku c h1 h2 hn
    have hc : c = 999 := by omega
    subst hc
    rw [skuStepsAux]
    split
    · rw [dif_pos (by omega)]
    · omega
  | succ m ih =>
    intro sku c h1 h2 hn
    rw [skuStepsAux]
    split
    · rw [dif_neg (by omega)]
      have := ih (original ++ "-" ++ pad2 c) (c + 1) (by omega) (by omega) (by omega)
      omega
    · omega

/-- `Order.calculate_totals` never touches the order's item rows. -/
theorem calculate_totals_items (o : Order) (now : ℤ) :
    (o.calculate_totals now).items = o.items := rfl

/-- Composing the view's item payload, the item serializer's price
overwrite and `OrderItem.save` yields exactly `expectedOrderItem`. -/
theorem item_pipeline (it : CartItem) :
    mkOrderItem (orderItemCreateValidate (viewItemData it)) = expectedOrderItem it := by
  cases h : it.product_variation <;>
    simp [mkOrderItem, orderItemCreateValidate, viewItemData, expectedOrderItem,
      storedUnitPrice, h]

/-- A non-positive quantity makes `AddToCartSerializer` fail on every
branch of its validation. -/
theorem addToCartInvalid_of_nonpos (products : List Product)
    (variations : List ProductVariation) (req : AddToCartRequest)
    (h : req.quantity ≤ 0) :
    ∃ e, addToCartIsValid products variations req = Except.error e := by
  unfold addToCartIsValid
  have h1 : req.quantity < 1 := by omega
  simp only [if_pos h1]
  repeat' split
  all_goals exact ⟨_, rfl⟩

/-- Claim C1: after `calculate_totals`, `total_amount` equals the sum of
the items' subtotals minus the discount amount plus `shipping_cost` and
`tax_amount`, and the discount amount is the coupon's
`get_discount_amount(subtotal)` exactly when the order has a valid coupon
whose minimum order amount is reached, `0` in every other case. -/
theorem calculate_totals_correct (o : Order) (now : ℤ) :
    ((o.calculate_totals now).total_amount =
        (o.items.map OrderItem.subtotal).sum
          - claimedDiscount o.coupon now ((o.items.map OrderItem.subtotal).sum)
          + o.shipping_cost + o.tax_amount) ∧
    (o.calculate_totals now).discount_amount =
        claimedDiscount o.coupon now ((o.items.map OrderItem.subtotal).sum) := by
  unfold Order.calculate_totals claimedDiscount
  cases o.coupon with
  | none => constructor <;> simp
  | some c =>
    by_cases hv : c.is_valid now <;>
      by_cases hm : c.minimum_order_amount ≤ (o.items.map OrderItem.subtotal).sum <;>
        refine ⟨?_, ?_⟩ <;> simp [hv, hm]
    all_goals ring

/-- Claim C2 counterexample: for a cart line holding a variation priced
100 with a 10% discount, the claim's formula gives a unit price of 90,
but the created order item carries 100 — `OrderItemCreateSerializer`
overwrites the view's discounted price with the variation's full price. -/
theorem create_from_cart_claim_false :
    (∃ o, createFromCart true [cexCartItem] cexRequest (fun _ => none) 0 [] 1 =
        Except.ok (o, []) ∧
      o.items.map OrderItem.unit_price = [100]) ∧
    claimedUnitPrice cexCartItem = 90 ∧ ((100 : ℚ) ≠ 90) := by
  refine ⟨⟨_, rfl, ?_⟩, ?_, by norm_num⟩
  · rfl
  · norm_num [claimedUnitPrice, cexCartItem, cexVariation, sampleProduct,
      CartItem.unit_price, ProductVariation.discounted_price, quantize2, roundHalfEven]

/-- Claim C2 (amended): a missing cart gives a 404 error and an empty cart
a 400 error with no order created; for a non-empty, fully available cart
and a request without a coupon code, `create_from_cart` creates an order
with exactly one item per cart line — same product, same variation, same
quantity — whose unit price is the variation's price (or the product's
discounted price for lines without a variation), and clears the cart. -/
theorem create_from_cart_spec (cart : List CartItem) (req : CreateFromCartRequest)
    (lookup : String → Option Coupon) (now : ℤ) (usages : List CouponUsage) (user : ℕ) :
    createFromCart false cart req lookup now usages user =
      .error (404, "No cart found for user") ∧
    createFromCart true [] req lookup now usages user = .error (400, "Cart is empty") ∧
    (cart ≠ [] → (∀ it ∈ cart, it.is_available = true) → req.coupon_code = "" →
      ∃ o, createFromCart true cart req lookup now usages user = Except.ok (o, []) ∧
        o.items = cart.map expectedOrderItem) := by
  refine ⟨rfl, rfl, ?_⟩
  intro hne hav hcc
  have hfind : cart.find? (fun it => !it.is_available) = none := by
    rw [List.find?_eq_none]
    intro it hit
    simp [hav it hit]
  obtain ⟨a, l, rfl⟩ : ∃ a l, cart = a :: l := by
    cases cart
    · cases hne rfl
    · exact ⟨_, _, rfl⟩
  refine ⟨orderCreateSerializerCreate (((a :: l).map viewItemData).map orderItemCreateValidate)
    none req now usages user, ?_, ?_⟩
  · unfold createFromCart
    rw [hfind, hcc]
    rfl
  · have hitems : ∀ items coupon,
        (orderCreateSerializerCreate items coupon req now usages user).items =
          items.map mkOrderItem := by
      intro items coupon
      cases coupon <;> simp [orderCreateSerializerCreate, calculate_totals_items]
    rw [hitems, List.map_map, List.map_map]
    exact List.map_congr_left (fun it _ => item_pipeline it)

/-- Witness for `create_from_cart_spec`: the success branch at a concrete
one-line cart. -/
theorem create_from_cart_spec_witness :
    ∃ o, createFromCart true [cexCartItem] cexRequest (fun _ => none) 0 [] 1 =
        Except.ok (o, []) ∧
      o.items = [cexCartItem].map expectedOrderItem :=
  (create_from_cart_spec [cexCartItem] cexRequest (fun _ => none) 0 [] 1).2.2
    (by decide) (by decide) rfl

set_option maxRecDepth 8192

/-- Claim C3 counterexample: with the base and all two-digit candidates
taken, `ensure_unique_sku` returns `"B-100"`, whose counter suffix has
three digits — not the base, and not a two-digit counter suffix as the
claim states. -/
theorem ensure_unique_sku_claim_false :
    ensure_unique_sku ("B") skuCexSet ("123456") = "B-100" ∧
    ¬ claimC3Holds ("B") ("123456") skuCexSet := by
  have hval : ensure_unique_sku ("B") skuCexSet ("123456") = "B-100" := by
    rw [ensure_unique_sku_eq_find]
    decide
  refine ⟨hval, ?_⟩
  unfold claimC3Holds
  rw [hval]
  decide

/-- Claim C3 (amended): `ensure_unique_sku` returns the base SKU when it
is not among the existing SKUs; otherwise the first free candidate among
`base-{c:02d}` for counters 1 through 998 (two digits for counters up to
99, three beyond); and when the base and all 998 counter candidates are
taken it returns the base with the timestamp suffix, which is not checked
against the existing set. -/
theorem ensure_unique_sku_characterization (base timestamp : String)
    (existing : List String) :
    ensure_unique_sku base existing timestamp =
      if existing.contains base then
        (((List.range' 1 998).map (fun k => base ++ "-" ++ pad2 k)).find?
            (fun s => !existing.contains s)).getD (base ++ "-" ++ timestamp)
      else base :=
  ensure_unique_sku_eq_find base timestamp existing

/-- Claim C4 (code bug): `OrderViewSet.cancel` evaluates the truthiness of
the `can_be_cancelled` bound method instead of calling it, so a delivered
order — for which `can_be_cancelled` is false — is still set to
`cancelled` with a 200 response instead of being rejected with 400. -/
theorem cancel_ignores_guard :
    deliveredOrder.can_be_cancelled = false ∧
    (cancelView deliveredOrder).1.status = OrderStatus.cancelled ∧
    (cancelView deliveredOrder).2.httpStatus = 200 :=
  ⟨rfl, rfl, rfl⟩

/-- Claim C5: a coupon that is expired (or not yet started, or inactive)
has `is_valid` false, coupon validation reports it as not currently
valid, and order creation rejects its code instead of attaching it. -/
theorem expired_coupon_rejected (c : Coupon) (now : ℤ) (usages : List CouponUsage)
    (user : ℕ) (order_total : ℚ) (code : String) (lookup : String → Option Coupon)
    (h : c.end_date < now ∨ now < c.start_date ∨ c.is_active = false)
    (hcode : code ≠ "") (hlook : lookup code.toUpper = some c) :
    c.is_valid now = false ∧
    couponValidationValidate (some c) now usages user order_total =
      .error ("This coupon is not currently valid") ∧
    validate_coupon_code code lookup now = .error ("Invalid or expired coupon code") := by
  have hv : c.is_valid now = false := by
    unfold Coupon.is_valid
    rcases h with h | h | h
    · simp [not_le.mpr h]
    · simp [not_le.mpr h]
    · simp [h]
  refine ⟨hv, ?_, ?_⟩
  · simp [couponValidationValidate, hv]
  · simp [validate_coupon_code, hcode, hlook, hv]

/-- Witness for `expired_coupon_rejected`: a coupon whose `end_date` 5 has
passed at time 10. -/
theorem expired_coupon_rejected_witness :
    expiredCoupon.is_valid 10 = false ∧
    couponValidationValidate (some expiredCoupon) 10 [] 1 100 =
      .error ("This coupon is not currently valid") ∧
    validate_coupon_code ("SAVE10") (fun _ => some expiredCoupon) 10 =
      .error ("Invalid or expired coupon code") :=
  expired_coupon_rejected expiredCoupon 10 [] 1 100 ("SAVE10")
    (fun _ => some expiredCoupon) (Or.inl (by decide)) (by decide) rfl

/-- Claim C6: once `times_used` reaches a coupon's total `usage_limit`,
`is_valid` is false; and once the recorded `CouponUsage` rows for a
coupon and user reach `usage_limit_per_user`, `can_be_used_by_user` is
false for that user. -/
theorem coupon_usage_limits (c : Coupon) (now : ℤ) (usages : List CouponUsage)
    (user : ℕ) :
    (∀ lim, c.usage_limit = some lim → lim ≤ c.times_used → c.is_valid now = false) ∧
    (c.usage_limit_per_user ≤ countUserUsages c user usages →
      c.can_be_used_by_user now usages user = false) := by
  constructor
  · intro lim hlim hle
    unfold Coupon.is_valid
    simp [hlim, not_lt.mpr hle]
  · intro hle
    unfold Coupon.can_be_used_by_user
    split
    · rfl
    · simp [not_lt.mpr hle]

/-- Witness for `coupon_usage_limits`: a coupon with total limit 2 already
used twice, and a user who has exhausted a per-user limit of 1. -/
theorem coupon_usage_limits_witness :
    cappedCoupon.is_valid 10 = false ∧
    cappedCoupon.can_be_used_by_user 10 [capUsage] 7 = false :=
  ⟨(coupon_usage_limits cappedCoupon 10 [capUsage] 7).1 2 rfl (by decide),
   (coupon_usage_limits cappedCoupon 10 [capUsage] 7).2 (by decide)⟩

/-- Claim C7: the `ensure_unique_sku` retry loop performs at most 999
collision iterations on any input, and when the base and every counter
candidate are taken it exits via the timestamp fallback. -/
theorem ensure_unique_sku_terminates (base timestamp : String) (existing : List String) :
    skuLoopSteps base existing ≤ 999 ∧
    ensure_unique_sku base (skuCandidates base) timestamp = base ++ "-" ++ timestamp := by
  constructor
  · have h := skuStepsAux_le base existing 998 base 1 (by omega) (by omega) (by omega)
    simpa [skuLoopSteps] using h
  · have h := ensureUniqueSkuAux_eq base timestamp (skuCandidates base) 998 base 1
      (by omega) (by omega) (by omega)
    have hbase : (skuCandidates base).contains base = true := by
      simp [skuCandidates, List.contains_cons]
    have hnone : (((List.range' 1 (999 - 1)).map (fun k => base ++ "-" ++ pad2 k)).find?
        (fun s => !(skuCandidates base).contains s)) = none := by
      rw [List.find?_eq_none]
      intro x hx
      have hxmem : x ∈ skuCandidates base := List.mem_cons_of_mem _ hx
      simp [List.elem_eq_mem, hxmem]
    rw [ensure_unique_sku] at *
    rw [h, if_pos hbase, hnone]
    rfl

/-- Claim C8: a request with quantity 0 (or below) is rejected with a 400
response on both the add-to-cart and the cart-item-create paths, and the
cart is unchanged. -/
theorem zero_quantity_rejected (products : List Product)
    (variations : List ProductVariation) (cart : List CartItem)
    (req : AddToCartRequest) (inp : CartItemCreateInput)
    (hreq : req.quantity ≤ 0) (hinp : inp.quantity ≤ 0) :
    add_item_view products variations cart req = (cart, 400) ∧
    cart_item_create_view cart inp = (cart, 400) := by
  constructor
  · obtain ⟨e, he⟩ := addToCartInvalid_of_nonpos products variations req hreq
    unfold add_item_view
    rw [he]
  · unfold cart_item_create_view cartItemCreateIsValid validate_quantity
    rw [if_pos hinp]

/-- Witness for `zero_quantity_rejected`: quantity 0 against an in-stock
product and an empty cart. -/
theorem zero_quantity_rejected_witness :
    add_item_view [sampleProduct] [] []
      { product_id := 1, product_variation_id := none, quantity := 0 } = ([], 400) ∧
    cart_item_create_view []
      { product := sampleProduct, product_variation := none, quantity := 0 } = ([], 400) :=
  zero_quantity_rejected [sampleProduct] [] [] _ _ (by decide) (by decide)

/-- Claim C9: the update endpoint accepts exactly the transitions
created→confirmed/cancelled, confirmed→processing/cancelled,
processing→shipped/cancelled, shipped→delivered; from delivered,
cancelled or refunded every requested status change is rejected with a
validation error. -/
theorem order_status_transitions (current value : OrderStatus) :
    (validate_status current value = .ok value ↔
      ((current = .created ∧ (value = .confirmed ∨ value = .cancelled)) ∨
       (current = .confirmed ∧ (value = .processing ∨ value = .cancelled)) ∨
       (current = .processing ∧ (value = .shipped ∨ value = .cancelled)) ∨
       (current = .shipped ∧ value = .delivered))) ∧
    validate_status .delivered value =
      .error ("Cannot change status from delivered to " ++ statusStr value) ∧
    validate_status .cancelled value =
      .error ("Cannot change status from cancelled to " ++ statusStr value) ∧
    validate_status .refunded value =
      .error ("Cannot change status from refunded to " ++ statusStr value) := by
  refine ⟨?_, ?_, ?_, ?_⟩ <;> cases current <;> cases value <;> decide

/-- Claim C10 counterexample: two 400 responses — one with a mapping body,
one with a list body — receive messages `'Validation error'` and
`'An error occurred'` respectively, so the message is not determined by
the status code alone. -/
theorem exception_message_not_status_determined :
    jsonField (custom_exception_handler dictBadRequest).data ("message") =
      some (.str ("Validation error")) ∧
    jsonField (custom_exception_handler listBadRequest).data ("message") =
      some (.str ("An error occurred")) ∧
    ("Validation error" : String) ≠ "An error occurred" :=
  ⟨rfl, rfl, by decide⟩

/-- Claim C10 (amended): the handler keeps the framework's status code and
returns a body with `success` false, a `message` determined by the status
code for mapping bodies and `'An error occurred'` for any other body, and
the original details under `errors` (wrapped as `{'detail': …}` when the
body is not a mapping). -/
theorem exception_handler_shape (r : DRFResponse) :
    (custom_exception_handler r).status_code = r.status_code ∧
    jsonField (custom_exception_handler r).data ("success") = some (.bool false) ∧
    jsonField (custom_exception_handler r).data ("message") =
      some (.str (match r.data with
                  | .obj _ => messageForStatus r.status_code
                  | _ => "An error occurred")) ∧
    jsonField (custom_exception_handler r).data ("errors") =
      some (match r.data with
            | .obj fields => .obj fields
            | d => .obj [("detail", d)]) := by
  obtain ⟨code, data⟩ := r
  cases data <;> exact ⟨rfl, rfl, rfl, rfl⟩

end Rodan
